import Mathlib

/-!
Verification of the cost-simulation and fiscal-ledger core of the
Autonomous-Cloud-Governance repository (`src/brain.py`, class `LLMBrain`).

Shallow embedding choices:
* Python `str` is modelled by Lean `String`; `len` is `String.length`
  (both count Unicode code points).
* Python `int` token counts are modelled by `ℕ` (they start at zero and
  only ever have natural numbers added).
* Python `float` costs are modelled by exact rationals `ℚ`; the float
  literal `0.015` is the rational `15/1000`.
* The external Ollama engine is modelled as an oracle
  `List Message → Option String`: `some text` is a successful chat reply
  whose `message.content` is `text`, `none` is a raised exception
  (connection error or engine error).  A raised exception makes
  `generate_response` return `none` (the exception propagates) and
  leaves the brain state untouched.
* The `self._client.list()` probe of `check_connection` is modelled as
  an `Except String (List String)` value: `ok` is a successful model
  listing, `error` is any raised exception.
-/

/-- `COST_PER_1K_TOKENS = 0.015` ($ per 1,000 tokens), from brain.py line 42. -/
def COST_PER_1K_TOKENS : ℚ := 15 / 1000

/-- `CHARS_PER_TOKEN = 4`, from brain.py line 43. -/
def CHARS_PER_TOKEN : ℕ := 4

/-- `DEFAULT_MODEL = "llama3.1"`, from brain.py line 47. -/
def DEFAULT_MODEL : String := "llama3.1"

/-- `OLLAMA_HOST`, from brain.py line 46. -/
def OLLAMA_HOST : String := "http://localhost:11434"

/-- A role-tagged chat message, as built by `generate_response` (brain.py
lines 180-192). -/
structure Message where
  role : String
  content : String
deriving DecidableEq, Repr

/-- The `LLMResponse` dataclass (brain.py lines 50-61). -/
structure LLMResponse where
  text : String
  estimated_tokens : ℕ
  simulated_cost : ℚ
  model : String
deriving DecidableEq, Repr

/-- The mutable state of an `LLMBrain` instance (brain.py lines 92-108):
model, host, and the fiscal ledger. -/
structure LLMBrain where
  model : String
  host : String
  total_tokens_used : ℕ
  total_cost_incurred : ℚ
deriving DecidableEq, Repr

/-- `LLMBrain.__init__` (brain.py lines 92-108): stores model and host and
initializes the fiscal ledger to zero. -/
def LLMBrain.init (model : String := DEFAULT_MODEL) (host : String := OLLAMA_HOST) :
    LLMBrain :=
  { model := model
    host := host
    total_tokens_used := 0
    total_cost_incurred := 0 }

/-- `LLMBrain.calculate_simulated_cost` (brain.py lines 110-142):
`estimated_tokens = max(1, len(text) // CHARS_PER_TOKEN)`,
`simulated_cost = (estimated_tokens / 1000) * COST_PER_1K_TOKENS`. -/
def calculate_simulated_cost (text : String) : ℕ × ℚ :=
  let estimated_tokens := max 1 (text.length / CHARS_PER_TOKEN)
  let simulated_cost := ((estimated_tokens : ℚ) / 1000) * COST_PER_1K_TOKENS
  (estimated_tokens, simulated_cost)

/-- Python truthiness test `if system_message:` (brain.py line 183):
`None` and the empty string are falsy. -/
def truthy : Option String → Bool
  | none => false
  | some s => !s.isEmpty

/-- Python `(system_message or "")` (brain.py line 195): yields the right
operand when the left is falsy (`None` or `""`). -/
def py_or_empty : Option String → String
  | none => ""
  | some s => if s.isEmpty then "" else s

/-- The message list built by `generate_response` (brain.py lines 180-192):
an optional leading system message (only when `system_message` is truthy)
followed by the user message carrying the prompt. -/
def build_messages (prompt : String) (system_message : Option String) :
    List Message :=
  (if truthy system_message then
    [{ role := "system", content := py_or_empty system_message }]
  else []) ++ [{ role := "user", content := prompt }]

/-- `LLMBrain.generate_response` (brain.py lines 144-223).  The engine
oracle receives the composed message list; `none` models a raised
exception at the `self._client.chat` call (line 199), in which case the
function returns `none` (exception propagates) without touching the
ledger.  On success it estimates input and output costs, accumulates
both totals into the ledger, and returns the `LLMResponse` together with
the updated brain state. -/
def generate_response (brain : LLMBrain)
    (engine : List Message → Option String)
    (prompt : String) (system_message : Option String := none) :
    Option (LLMResponse × LLMBrain) :=
  let messages := build_messages prompt system_message
  let input_text := py_or_empty system_message ++ prompt
  let inp := calculate_simulated_cost input_text
  match engine messages with
  | none => none
  | some response_text =>
    let outp := calculate_simulated_cost response_text
    let total_tokens := inp.1 + outp.1
    let total_cost := inp.2 + outp.2
    let brain' : LLMBrain :=
      { brain with
        total_tokens_used := brain.total_tokens_used + total_tokens
        total_cost_incurred := brain.total_cost_incurred + total_cost }
    some ({ text := response_text
            estimated_tokens := total_tokens
            simulated_cost := total_cost
            model := brain.model }, brain')

/-- The dict returned by `LLMBrain.get_fiscal_summary` (brain.py
lines 225-240). -/
structure FiscalSummary where
  total_tokens_used : ℕ
  total_cost_incurred : ℚ
  cost_per_1k_tokens : ℚ
  model : String
deriving DecidableEq, Repr

/-- `LLMBrain.get_fiscal_summary` (brain.py lines 225-240): a pure read of
the ledger plus fixed configuration. -/
def get_fiscal_summary (brain : LLMBrain) : FiscalSummary :=
  { total_tokens_used := brain.total_tokens_used
    total_cost_incurred := brain.total_cost_incurred
    cost_per_1k_tokens := COST_PER_1K_TOKENS
    model := brain.model }

/-- `LLMBrain.check_connection` (brain.py lines 242-254): the
`self._client.list()` probe either succeeds with a model listing or
raises; any raised exception is caught and collapsed to `false`. -/
def check_connection (probe : Except String (List String)) : Bool :=
  match probe with
  | Except.ok _ => true
  | Except.error _ => false

/-- One observable operation on a brain instance, for stating
state-evolution invariants over arbitrary call sequences. -/
inductive Operation where
  | generate (engine : List Message → Option String)
      (prompt : String) (system_message : Option String)
  | fiscalSummary
  | checkConnection (probe : Except String (List String))

/-- The brain state after one operation.  `generate` updates the state
only when it succeeds; a failed `generate` (raised exception) and the
two read-only operations leave the state unchanged. -/
def applyOp (brain : LLMBrain) : Operation → LLMBrain
  | Operation.generate engine prompt sm =>
    match generate_response brain engine prompt sm with
    | some (_, brain') => brain'
    | none => brain
  | Operation.fiscalSummary => brain
  | Operation.checkConnection _ => brain

/-- The brain state after a sequence of operations. -/
def runOps (brain : LLMBrain) (ops : List Operation) : LLMBrain :=
  ops.foldl applyOp brain

/-- Concrete states used to instantiate the theorems below. -/
def testBrain : LLMBrain := LLMBrain.init

def testEngine : List Message → Option String := fun _ => some "ok!!"

def failEngine : List Message → Option String := fun _ => none

def testRes : LLMResponse :=
  { text := "ok!!"
    estimated_tokens := 2
    simulated_cost := 3 / 100000
    model := "llama3.1" }

def testBrainAfter : LLMBrain :=
  { model := "llama3.1"
    host := OLLAMA_HOST
    total_tokens_used := 2
    total_cost_incurred := 3 / 100000 }

/-- Shape of every successful `generate_response` call: the engine replied
with some text `t`, the result fields are the input-side plus output-side
estimates over `(system_message or "") + prompt` and `t`, and the new
brain state accumulates exactly those totals. -/
theorem generate_response_success_spec {brain : LLMBrain}
    {engine : List Message → Option String} {prompt : String}
    {sm : Option String} {res : LLMResponse} {brain' : LLMBrain}
    (h : generate_response brain engine prompt sm = some (res, brain')) :
    ∃ t, engine (build_messages prompt sm) = some t ∧
      res = { text := t
              estimated_tokens :=
                (calculate_simulated_cost (py_or_empty sm ++ prompt)).1 +
                  (calculate_simulated_cost t).1
              simulated_cost :=
                (calculate_simulated_cost (py_or_empty sm ++ prompt)).2 +
                  (calculate_simulated_cost t).2
              model := brain.model } ∧
      brain' = { brain with
              total_tokens_used := brain.total_tokens_used +
                ((calculate_simulated_cost (py_or_empty sm ++ prompt)).1 +
                  (calculate_simulated_cost t).1)
              total_cost_incurred := brain.total_cost_incurred +
                ((calculate_simulated_cost (py_or_empty sm ++ prompt)).2 +
                  (calculate_simulated_cost t).2) } := by
  simp only [generate_response] at h
  cases he : engine (build_messages prompt sm) with
  | none => rw [he] at h; exact absurd h (by simp)
  | some t =>
    rw [he] at h
    simp only [Option.some.injEq, Prod.mk.injEq] at h
    obtain ⟨hres, hb⟩ := h
    exact ⟨t, rfl, hres.symm, hb.symm⟩

/-- Every simulated cost produced by the estimator is non-negative. -/
theorem calculate_simulated_cost_nonneg (s : String) :
    0 ≤ (calculate_simulated_cost s).2 := by
  unfold calculate_simulated_cost COST_PER_1K_TOKENS
  positivity

/-- The ledger never decreases across one operation. -/
theorem applyOp_mono (brain : LLMBrain) (op : Operation) :
    brain.total_tokens_used ≤ (applyOp brain op).total_tokens_used ∧
    brain.total_cost_incurred ≤ (applyOp brain op).total_cost_incurred := by
  cases op with
  | generate engine prompt sm =>
    simp only [applyOp]
    cases hg : generate_response brain engine prompt sm with
    | none => exact ⟨le_refl _, le_refl _⟩
    | some p =>
      obtain ⟨res, brain'⟩ := p
      obtain ⟨t, _, _, hb⟩ := generate_response_success_spec hg
      subst hb
      refine ⟨Nat.le_add_right _ _, le_add_of_nonneg_right ?_⟩
      have h1 := calculate_simulated_cost_nonneg (py_or_empty sm ++ prompt)
      have h2 := calculate_simulated_cost_nonneg t
      linarith
  | fiscalSummary => exact ⟨le_refl _, le_refl _⟩
  | checkConnection probe => exact ⟨le_refl _, le_refl _⟩

/-- The ledger never decreases across any sequence of operations. -/
theorem runOps_mono (ops : List Operation) (brain : LLMBrain) :
    brain.total_tokens_used ≤ (runOps brain ops).total_tokens_used ∧
    brain.total_cost_incurred ≤ (runOps brain ops).total_cost_incurred := by
  induction ops generalizing brain with
  | nil => exact ⟨le_refl _, le_refl _⟩
  | cons op rest ih =>
    have h1 := applyOp_mono brain op
    have h2 := ih (applyOp brain op)
    exact ⟨h1.1.trans h2.1, h1.2.trans h2.2⟩

/-- Concrete evaluation of `generate_response` on a fresh brain, prompt
`"abcd"`, no system message, and an engine replying `"ok!!"`: both sides
estimate 1 token, so the result has 2 tokens and cost `2 * 0.015/1000`. -/
theorem generate_response_test_eval :
    generate_response testBrain testEngine "abcd" none =
      some (testRes, testBrainAfter) := by
  simp only [generate_response, build_messages, truthy, py_or_empty,
    calculate_simulated_cost, testEngine, testBrain, testRes,
    testBrainAfter, LLMBrain.init, COST_PER_1K_TOKENS, CHARS_PER_TOKEN,
    DEFAULT_MODEL, OLLAMA_HOST]
  norm_num [show "abcd".length = 4 from rfl, show "ok!!".length = 4 from rfl]

/-- Claim C1: for every string `s` (the empty string included),
`calculate_simulated_cost(s)` returns `max(1, len(s) // 4)` tokens; in
particular on `""` it returns exactly 1 token and cost
`COST_PER_1K_TOKENS / 1000`. -/
theorem C1_estimator_formula (s : String) :
    (calculate_simulated_cost s).1 = max 1 (s.length / 4) ∧
    (calculate_simulated_cost "").1 = 1 ∧
    (calculate_simulated_cost "").2 = COST_PER_1K_TOKENS / 1000 := by
  refine ⟨rfl, rfl, ?_⟩
  norm_num [calculate_simulated_cost, COST_PER_1K_TOKENS]

/-- Claim C2: after every successful `generate_response` call the ledger totals
equal their prior values plus the returned result's `estimated_tokens`
and `simulated_cost`. -/
theorem C2_ledger_additivity (brain : LLMBrain)
    (engine : List Message → Option String) (prompt : String)
    (sm : Option String) (res : LLMResponse) (brain' : LLMBrain)
    (h : generate_response brain engine prompt sm = some (res, brain')) :
    brain'.total_tokens_used = brain.total_tokens_used + res.estimated_tokens ∧
    brain'.total_cost_incurred = brain.total_cost_incurred + res.simulated_cost := by
  obtain ⟨t, _, hres, hb⟩ := generate_response_success_spec h
  subst hres
  subst hb
  exact ⟨rfl, rfl⟩

/-- Claim C2, witness at a concrete call. -/
theorem C2_ledger_additivity_witness :
    testBrainAfter.total_tokens_used =
      testBrain.total_tokens_used + testRes.estimated_tokens ∧
    testBrainAfter.total_cost_incurred =
      testBrain.total_cost_incurred + testRes.simulated_cost :=
  C2_ledger_additivity testBrain testEngine "abcd" none testRes testBrainAfter
    generate_response_test_eval

/-- Claim C3: if the engine call raises, `generate_response` fails
(returns `none`, the exception propagating to the caller) and the brain
state — in particular both ledger fields — is exactly unchanged. -/
theorem C3_failure_no_ledger_update (brain : LLMBrain)
    (engine : List Message → Option String) (prompt : String)
    (sm : Option String)
    (h : engine (build_messages prompt sm) = none) :
    generate_response brain engine prompt sm = none ∧
    applyOp brain (Operation.generate engine prompt sm) = brain := by
  have hg : generate_response brain engine prompt sm = none := by
    simp only [generate_response]
    rw [h]
  exact ⟨hg, by simp only [applyOp, hg]⟩

/-- Claim C3, witness: an always-raising engine on a concrete call. -/
theorem C3_failure_no_ledger_update_witness :
    generate_response testBrain failEngine "abcd" none = none ∧
    applyOp testBrain (Operation.generate failEngine "abcd" none) = testBrain :=
  C3_failure_no_ledger_update testBrain failEngine "abcd" none rfl

/-- Claim C4: every `LLMResponse` returned by `generate_response`
satisfies `simulated_cost = (estimated_tokens / 1000) * COST_PER_1K_TOKENS`
exactly (with costs modelled as exact rationals), where
`estimated_tokens` is the sum of the input-side and output-side token
estimates and `COST_PER_1K_TOKENS = 0.015`. -/
theorem C4_cost_token_invariant (brain : LLMBrain)
    (engine : List Message → Option String) (prompt : String)
    (sm : Option String) (res : LLMResponse) (brain' : LLMBrain)
    (h : generate_response brain engine prompt sm = some (res, brain')) :
    res.simulated_cost =
      ((res.estimated_tokens : ℚ) / 1000) * COST_PER_1K_TOKENS ∧
    res.estimated_tokens =
      (calculate_simulated_cost (py_or_empty sm ++ prompt)).1 +
        (calculate_simulated_cost res.text).1 ∧
    COST_PER_1K_TOKENS = 15 / 1000 := by
  obtain ⟨t, _, hres, _⟩ := generate_response_success_spec h
  subst hres
  refine ⟨?_, rfl, rfl⟩
  simp only [calculate_simulated_cost]
  push_cast
  ring

/-- Claim C4, witness at a concrete call. -/
theorem C4_cost_token_invariant_witness :
    testRes.simulated_cost =
      ((testRes.estimated_tokens : ℚ) / 1000) * COST_PER_1K_TOKENS ∧
    testRes.estimated_tokens =
      (calculate_simulated_cost (py_or_empty none ++ "abcd")).1 +
        (calculate_simulated_cost testRes.text).1 ∧
    COST_PER_1K_TOKENS = 15 / 1000 :=
  C4_cost_token_invariant testBrain testEngine "abcd" none testRes
    testBrainAfter generate_response_test_eval

/-- Claim C5: the input-side estimate of every successful call is taken
over `(system_message or "") ++ prompt`; with no system message that
concatenation is the prompt alone. -/
theorem C5_input_concatenation (brain : LLMBrain)
    (engine : List Message → Option String) (prompt : String)
    (sm : Option String) (res : LLMResponse) (brain' : LLMBrain)
    (h : generate_response brain engine prompt sm = some (res, brain')) :
    res.estimated_tokens =
      (calculate_simulated_cost (py_or_empty sm ++ prompt)).1 +
        (calculate_simulated_cost res.text).1 ∧
    res.simulated_cost =
      (calculate_simulated_cost (py_or_empty sm ++ prompt)).2 +
        (calculate_simulated_cost res.text).2 ∧
    py_or_empty none ++ prompt = prompt := by
  obtain ⟨t, _, hres, _⟩ := generate_response_success_spec h
  subst hres
  refine ⟨rfl, rfl, ?_⟩
  simp [py_or_empty]

/-- Claim C5, witness at a concrete call with no system message. -/
theorem C5_input_concatenation_witness :
    testRes.estimated_tokens =
      (calculate_simulated_cost (py_or_empty none ++ "abcd")).1 +
        (calculate_simulated_cost testRes.text).1 ∧
    testRes.simulated_cost =
      (calculate_simulated_cost (py_or_empty none ++ "abcd")).2 +
        (calculate_simulated_cost testRes.text).2 ∧
    py_or_empty none ++ "abcd" = "abcd" :=
  C5_input_concatenation testBrain testEngine "abcd" none testRes
    testBrainAfter generate_response_test_eval

/-- Claim C6: the ledger totals are zero at construction and
non-decreasing over every sequence of operations (generate, fiscal
summary, connection check): no operation resets or decrements them. -/
theorem C6_ledger_zero_init_monotone (model host : String)
    (ops : List Operation) (brain : LLMBrain) :
    (LLMBrain.init model host).total_tokens_used = 0 ∧
    (LLMBrain.init model host).total_cost_incurred = 0 ∧
    brain.total_tokens_used ≤ (runOps brain ops).total_tokens_used ∧
    brain.total_cost_incurred ≤ (runOps brain ops).total_cost_incurred := by
  have h := runOps_mono ops brain
  exact ⟨rfl, rfl, h.1, h.2⟩

/-- The estimated cost is strictly positive for every string. -/
theorem calculate_simulated_cost_pos (s : String) :
    0 < (calculate_simulated_cost s).2 := by
  simp only [calculate_simulated_cost, COST_PER_1K_TOKENS]
  have h1 : (0 : ℚ) < ((max 1 (s.length / CHARS_PER_TOKEN) : ℕ) : ℚ) := by
    exact_mod_cast Nat.lt_of_lt_of_le Nat.one_pos (le_max_left _ _)
  exact mul_pos (div_pos h1 (by norm_num)) (by norm_num)

/-- Claim C7: the estimator is monotone non-decreasing in input length,
in both the token count and the cost, and every estimate is at least
1 token, hence at least the cost of 1 token. -/
theorem C7_estimator_monotone (s t : String) (h : s.length ≤ t.length) :
    (calculate_simulated_cost s).1 ≤ (calculate_simulated_cost t).1 ∧
    (calculate_simulated_cost s).2 ≤ (calculate_simulated_cost t).2 ∧
    1 ≤ (calculate_simulated_cost s).1 ∧
    ((1 : ℚ) / 1000) * COST_PER_1K_TOKENS ≤ (calculate_simulated_cost s).2 := by
  have htok : max 1 (s.length / CHARS_PER_TOKEN) ≤
      max 1 (t.length / CHARS_PER_TOKEN) :=
    max_le_max (le_refl 1) (Nat.div_le_div_right h)
  have hC : (0 : ℚ) ≤ COST_PER_1K_TOKENS := by norm_num [COST_PER_1K_TOKENS]
  refine ⟨htok, ?_, le_max_left _ _, ?_⟩
  · simp only [calculate_simulated_cost]
    have hcast : ((max 1 (s.length / CHARS_PER_TOKEN) : ℕ) : ℚ) ≤
        ((max 1 (t.length / CHARS_PER_TOKEN) : ℕ) : ℚ) := by exact_mod_cast htok
    exact mul_le_mul_of_nonneg_right
      (div_le_div_of_nonneg_right hcast (by norm_num)) hC
  · simp only [calculate_simulated_cost]
    have hone : (1 : ℚ) ≤ ((max 1 (s.length / CHARS_PER_TOKEN) : ℕ) : ℚ) := by
      exact_mod_cast le_max_left 1 (s.length / CHARS_PER_TOKEN)
    exact mul_le_mul_of_nonneg_right
      (div_le_div_of_nonneg_right hone (by norm_num)) hC

/-- Claim C7, witness at two concrete strings. -/
theorem C7_estimator_monotone_witness :
    "ab".length ≤ "abcdefgh".length ∧
    ((calculate_simulated_cost "ab").1 ≤ (calculate_simulated_cost "abcdefgh").1 ∧
     (calculate_simulated_cost "ab").2 ≤ (calculate_simulated_cost "abcdefgh").2 ∧
     1 ≤ (calculate_simulated_cost "ab").1 ∧
     ((1 : ℚ) / 1000) * COST_PER_1K_TOKENS ≤ (calculate_simulated_cost "ab").2) :=
  ⟨by decide, C7_estimator_monotone "ab" "abcdefgh" (by decide)⟩

/-- Claim C8: `check_connection` is a total Boolean function of the probe
outcome — it raises nothing; it returns `true` exactly when the model
listing probe succeeded and `false` exactly when the probe raised. -/
theorem C8_check_connection_total (probe : Except String (List String)) :
    (check_connection probe = true ↔ ∃ ms, probe = Except.ok ms) ∧
    (check_connection probe = false ↔ ∃ e, probe = Except.error e) := by
  cases probe <;> simp [check_connection]

/-- Claim C9: an empty-string system message behaves exactly like no
system message: the composed message list holds only the user message,
and `generate_response` returns the same value in both runs. -/
theorem C9_empty_system_message (brain : LLMBrain)
    (engine : List Message → Option String) (prompt : String) :
    build_messages prompt (some "") = [{ role := "user", content := prompt }] ∧
    build_messages prompt (some "") = build_messages prompt none ∧
    generate_response brain engine prompt (some "") =
      generate_response brain engine prompt none := by
  refine ⟨rfl, rfl, ?_⟩
  simp [generate_response, build_messages, truthy, py_or_empty,
    show "".isEmpty = true from rfl]

/-- Claim C10: every successful `generate_response` result has at least
2 estimated tokens and strictly positive simulated cost, because both
the input-side and output-side estimates floor at 1 token. -/
theorem C10_result_lower_bounds (brain : LLMBrain)
    (engine : List Message → Option String) (prompt : String)
    (sm : Option String) (res : LLMResponse) (brain' : LLMBrain)
    (h : generate_response brain engine prompt sm = some (res, brain')) :
    2 ≤ res.estimated_tokens ∧ 0 < res.simulated_cost := by
  obtain ⟨t, _, hres, _⟩ := generate_response_success_spec h
  subst hres
  constructor
  · show 2 ≤ (calculate_simulated_cost (py_or_empty sm ++ prompt)).1 +
      (calculate_simulated_cost t).1
    have h1 : 1 ≤ (calculate_simulated_cost (py_or_empty sm ++ prompt)).1 :=
      le_max_left _ _
    have h2 : 1 ≤ (calculate_simulated_cost t).1 := le_max_left _ _
    omega
  · show 0 < (calculate_simulated_cost (py_or_empty sm ++ prompt)).2 +
      (calculate_simulated_cost t).2
    exact add_pos (calculate_simulated_cost_pos _) (calculate_simulated_cost_pos _)

/-- Claim C10, witness at a concrete call. -/
theorem C10_result_lower_bounds_witness :
    2 ≤ testRes.estimated_tokens ∧ 0 < testRes.simulated_cost :=
  C10_result_lower_bounds testBrain testEngine "abcd" none testRes
    testBrainAfter generate_response_test_eval
